import Mathlib

/-!
Shallow embedding of the faq_bot repository (src/faq_bot/bot): the
RuleBasedBot / Admin state machine from bot_manager.py, the keyword
intent classifier from nlp_manager.py, and the HTTP view from views.py.

Modelling conventions:
- Python dicts (the bot's `db` and the admin's `unanswered_queries`)
  become association lists with unique keys; `assocGet` / `assocSet` /
  `assocDel` / `assocHas` mirror `m[k]`, `m[k] = v`, `del m[k]`, `k in m`.
- The spaCy document is modelled as a `Doc`: its raw `text` (spaCy's
  `doc.text` is the original input) plus a token list produced by an
  abstract tokenizer parameter `tok : String → List String`, since the
  tokenizer is an external NLP capability.
- The SMTP send (starttls / login / sendmail in
  `Admin.forward_query_to_admin`) either completes or raises; this is
  modelled by an oracle `oracle : Nat → Bool` consulted at the index of
  the current send attempt, together with a ghost `attempts` counter in
  the world recording how many send attempts have been made.  Catching
  of the exception in the Python `try/except` is modelled by
  `forward_query_to_admin` being a total function.
- The analyzers return `none` exactly when the Python functions return
  `None`; their non-`None` results are always non-empty strings, so
  Python truthiness tests on them coincide with `Option.isSome`.
-/

namespace FaqBot

/-- Association-list read, modelling Python `m[k]` / `m.get(k)` on a dict. -/
def assocGet : List (String × String) → String → Option String
  | [], _ => none
  | p :: rest, k => if p.1 == k then some p.2 else assocGet rest k

/-- Membership test modelling Python `k in m` on a dict. -/
def assocHas (m : List (String × String)) (k : String) : Bool :=
  (assocGet m k).isSome

/-- Association-list write, modelling Python `m[k] = v` on a dict
(overwrite in place, or append a new entry). -/
def assocSet : List (String × String) → String → String → List (String × String)
  | [], k, v => [(k, v)]
  | p :: rest, k, v => if p.1 == k then (k, v) :: rest else p :: assocSet rest k v

/-- Key removal, modelling Python `del m[k]`. -/
def assocDel : List (String × String) → String → List (String × String)
  | [], _ => []
  | p :: rest, k => if p.1 == k then assocDel rest k else p :: assocDel rest k

/-- ASCII lower-casing of one character; the repository's vocabulary and
test inputs are ASCII, where this agrees with Python `str.lower`. -/
def pyCharLower (c : Char) : Char :=
  if 65 ≤ c.toNat ∧ c.toNat ≤ 90 then Char.ofNat (c.toNat + 32) else c

/-- ASCII upper-casing of one character. -/
def pyCharUpper (c : Char) : Char :=
  if 97 ≤ c.toNat ∧ c.toNat ≤ 122 then Char.ofNat (c.toNat - 32) else c

/-- Python `s.lower()` (ASCII fragment). -/
def pyLower (s : String) : String := String.mk (s.data.map pyCharLower)

/-- Python `s.capitalize()`: first character upper-cased, all remaining
characters lower-cased. -/
def pyCapitalize (s : String) : String :=
  match s.data with
  | [] => ""
  | c :: cs => String.mk (pyCharUpper c :: cs.map pyCharLower)

/-- Substring occurrence on character lists (helper for `strContains`). -/
def listContains (pat : List Char) : List Char → Bool
  | [] => pat.isEmpty
  | c :: rest => pat.isPrefixOf (c :: rest) || listContains pat rest

/-- Python `pat in s` on strings (substring containment). -/
def strContains (s pat : String) : Bool := listContains pat.data s.data

/-- Python `", ".join xs`. -/
def pyJoin (sep : String) : List String → String
  | [] => ""
  | [s] => s
  | s :: rest => s ++ sep ++ pyJoin sep rest

/-- A processed document: spaCy's `Doc` abstracted to its raw text
(`doc.text` reconstructs the original input) and its token texts. -/
structure Doc where
  text : String
  tokens : List String
deriving DecidableEq

/-- NLPManager.process_input: running the (external) tokenizer on the
user input; `doc.text` is the original input string. -/
def process_input (tok : String → List String) (user_input : String) : Doc :=
  ⟨user_input, tok user_input⟩

/-- Greeting vocabulary from NLPManager.analyze_greeting. -/
def greetings : List String := ["hi", "hello", "hey"]

/-- Gratitude vocabulary from NLPManager.analyze_greeting. -/
def gratitude_words : List String := ["thanks", "thank", "thank you"]

/-- The token loop of NLPManager.analyze_greeting.  The Python loop
checks the current token against `greetings`, and then evaluates
`any(token.text.lower() in gratitude_words for token in doc)` — the
generator variable shadows the loop variable, so the gratitude check
ranges over the whole document on every iteration. -/
def greetingScan (allTokens : List String) : List String → Option String
  | [] => none
  | token :: rest =>
    if greetings.contains (pyLower token) then
      some "Hello there! How can I assist you today?"
    else if allTokens.any (fun tk => gratitude_words.contains (pyLower tk)) then
      some "You're welcome!"
    else greetingScan allTokens rest

/-- NLPManager.analyze_greeting. -/
def analyze_greeting (doc : Doc) : Option String :=
  greetingScan doc.tokens doc.tokens

/-- Keyword list from NLPManager.analyze_mission_vision. -/
def mission_keywords : List String := ["mission"]

/-- Keyword list from NLPManager.analyze_mission_vision. -/
def vision_keywords : List String := ["vision"]

/-- NLPManager.analyze_mission_vision. -/
def analyze_mission_vision (doc : Doc) : Option String :=
  if mission_keywords.any (fun k => strContains (pyLower doc.text) k) then
    some "To propel Africa's prosperity by connecting its people, cultures and markets."
  else if vision_keywords.any (fun k => strContains (pyLower doc.text) k) then
    some "To be Africa's preferred and sustainable Aviation group."
  else
    none

/-- Keyword list from NLPManager.analyze_scia_values. -/
def scia_keywords : List String :=
  ["safety", "customer obsession", "integrity", "accountability"]

/-- Scenario dictionary from NLPManager.get_scenario_for_value (note the
leading space in each scenario sentence, as in the source). -/
def scenarios : List (String × String) :=
  [("safety", " Safety is the foundation of everything we do."),
   ("customer obsession", " We commit to creating positive memorable experiences for our customers."),
   ("integrity", " We shall be ethical and trustworthy in all our engagements and we shall treat each person with respect."),
   ("accountability", " We take initiative and responsibility for our actions, decisions and results.")]

/-- NLPManager.get_scenario_for_value; the final Python truthiness test
`scenario if scenario else default_message` is an emptiness test. -/
def get_scenario_for_value (value : String) : String :=
  let default_message := "I don't have an answer for that, sorry."
  let scenario := (assocGet scenarios (pyLower value)).getD default_message
  if scenario == "" then default_message else scenario

/-- The keyword loop of NLPManager.analyze_scia_values. -/
def sciaScan (doc : Doc) : List String → Option String
  | [] => none
  | keyword :: rest =>
    if strContains (pyLower doc.text) keyword then
      some (pyCapitalize keyword ++ ": " ++ get_scenario_for_value keyword)
    else sciaScan doc rest

/-- NLPManager.analyze_scia_values. -/
def analyze_scia_values (doc : Doc) : Option String :=
  if strContains (pyLower doc.text) "values" then
    some (pyJoin ", " (scia_keywords.map pyCapitalize))
  else
    sciaScan doc scia_keywords

/-- SMTPConfig from smtp_config.py. -/
structure SMTPConfig where
  smtp_server : String
  smtp_port : Nat
  sender_email : String
  sender_password : String
  recipient_email : String
deriving DecidableEq

/-- Combined mutable state of the module-level singletons of views.py:
the RuleBasedBot's `db`, the Admin's `unanswered_queries`, and a ghost
counter of notification send attempts (entries into the SMTP send in
`forward_query_to_admin`). -/
structure World where
  db : List (String × String)
  unanswered_queries : List (String × String)
  attempts : Nat
deriving DecidableEq

/-- The state at process start: both dicts empty, no send attempted. -/
def initialWorld : World := { db := [], unanswered_queries := [], attempts := 0 }

/-- RuleBasedBot.add_to_db. -/
def add_to_db (w : World) (q a : String) : World :=
  { w with db := assocSet w.db q a }

/-- Admin.provide_answer: writes the answer into the bot's db and into
`unanswered_queries`. -/
def provide_answer (w : World) (q a : String) : World :=
  { (add_to_db w q a) with unanswered_queries := assocSet w.unanswered_queries q a }

/-- Admin.has_unanswered_queries. -/
def has_unanswered_queries (w : World) : Bool :=
  !w.unanswered_queries.isEmpty

/-- Admin.get_response. -/
def get_response (w : World) (q : String) : String :=
  (assocGet w.unanswered_queries q).getD "I don't have an answer for that, sorry."

/-- Admin.get_unanswered_queries: `list(self.unanswered_queries.keys())`. -/
def get_unanswered_queries (w : World) : List String :=
  w.unanswered_queries.map Prod.fst

/-- Admin.mark_resolved. -/
def mark_resolved (w : World) (q : String) : World :=
  { w with unanswered_queries := assocDel w.unanswered_queries q }

/-- Admin.forward_query_to_admin.  If a record for `q` already exists,
nothing happens (no send attempt).  Otherwise one SMTP send is
attempted; its outcome is `oracle w.attempts`.  On success the record
becomes the pending placeholder, on a raised exception the `except`
branch records the forwarding-error status.  Totality of this function
models that the exception is caught and never propagated. -/
def forward_query_to_admin (oracle : Nat → Bool) (cfg : SMTPConfig) (w : World) (q : String) : World :=
  if assocHas w.unanswered_queries q then w
  else if oracle w.attempts then
    { w with attempts := w.attempts + 1,
             unanswered_queries :=
               assocSet w.unanswered_queries q "Forwarded to admin's email. Waiting for response." }
  else
    { w with attempts := w.attempts + 1,
             unanswered_queries :=
               assocSet w.unanswered_queries q "Error forwarding to admin. Please try again." }

/-- RuleBasedBot.respond: db lookup, then the three analyzers in
priority order, else write the placeholder into the db, forward to the
admin, and return the apology string (with its trailing emoji, as in
the source). -/
def respond (tok : String → List String) (oracle : Nat → Bool) (cfg : SMTPConfig)
    (w : World) (user_input : String) : World × String :=
  match assocGet w.db user_input with
  | some a => (w, a)
  | none =>
    let nlp_doc := process_input tok user_input
    let greeting_response := analyze_greeting nlp_doc
    let mission_vision_response := analyze_mission_vision nlp_doc
    let scia_values_response := analyze_scia_values nlp_doc
    match greeting_response with
    | some r => (w, r)
    | none =>
      match mission_vision_response with
      | some r => (w, r)
      | none =>
        match scia_values_response with
        | some r => (w, r)
        | none =>
          let w1 := add_to_db w user_input "Forwarded to admin's email. Waiting for response."
          let w2 := forward_query_to_admin oracle cfg w1 user_input
          (w2, "I don't have an answer for that, sorry. 😔")

/-- The classifier stage of `respond` as one function: the three
analyzers in their priority order. -/
def classify (doc : Doc) : Option String :=
  match analyze_greeting doc with
  | some r => some r
  | none =>
    match analyze_mission_vision doc with
    | some r => some r
    | none => analyze_scia_values doc

/-- Iterating `respond` on the same question, keeping only the state. -/
def respondN (tok : String → List String) (oracle : Nat → Bool) (cfg : SMTPConfig)
    (q : String) : Nat → World → World
  | 0, w => w
  | n + 1, w => respondN tok oracle cfg q n (respond tok oracle cfg w q).1

/-- One public operation on the shared bot/admin state. -/
inductive Event where
  | respond : String → Event
  | forward : String → Event
  | provideAnswer : String → String → Event
  | resolve : String → Event
deriving DecidableEq

/-- Executing one public operation. -/
def step (tok : String → List String) (oracle : Nat → Bool) (cfg : SMTPConfig)
    (w : World) : Event → World
  | Event.respond u => (respond tok oracle cfg w u).1
  | Event.forward p => forward_query_to_admin oracle cfg w p
  | Event.provideAnswer p a => provide_answer w p a
  | Event.resolve p => mark_resolved w p

/-- Executing a trace of public operations. -/
def run (tok : String → List String) (oracle : Nat → Bool) (cfg : SMTPConfig) :
    World → List Event → World
  | w, [] => w
  | w, e :: es => run tok oracle cfg (step tok oracle cfg w e) es

/-- Whether `respond` on input `u` in state `w` reaches the escalation
branch: db miss and all three analyzers miss. -/
def escalateMiss (tok : String → List String) (w : World) (u : String) : Bool :=
  (assocGet w.db u).isNone
    && (analyze_greeting (process_input tok u)).isNone
    && (analyze_mission_vision (process_input tok u)).isNone
    && (analyze_scia_values (process_input tok u)).isNone

/-- Ghost history flag for question `q`: set when `q` is forwarded
(directly or through an escalating `respond`) or given an answer via
`provide_answer`, cleared when `q` is resolved. -/
def trackedStep (tok : String → List String) (w : World) (q : String) (g : Bool) : Event → Bool
  | Event.respond u => if u == q && escalateMiss tok w u then true else g
  | Event.forward p => if p == q then true else g
  | Event.provideAnswer p _ => if p == q then true else g
  | Event.resolve p => if p == q then false else g

/-- Running the ghost flag of `trackedStep` along a trace. -/
def trackedRun (tok : String → List String) (oracle : Nat → Bool) (cfg : SMTPConfig)
    (q : String) : World → Bool → List Event → Bool
  | _, g, [] => g
  | w, g, e :: es => trackedRun tok oracle cfg q (step tok oracle cfg w e) (trackedStep tok w q g e) es

/-- Ghost history flag for the claim's reading of the invariant: set
only when `q` is forwarded (directly or through an escalating
`respond`), NOT by `provide_answer`; cleared when `q` is resolved. -/
def forwardedStep (tok : String → List String) (w : World) (q : String) (g : Bool) : Event → Bool
  | Event.respond u => if u == q && escalateMiss tok w u then true else g
  | Event.forward p => if p == q then true else g
  | Event.provideAnswer _ _ => g
  | Event.resolve p => if p == q then false else g

/-- Running the ghost flag of `forwardedStep` along a trace. -/
def forwardedRun (tok : String → List String) (oracle : Nat → Bool) (cfg : SMTPConfig)
    (q : String) : World → Bool → List Event → Bool
  | _, g, [] => g
  | w, g, e :: es => forwardedRun tok oracle cfg q (step tok oracle cfg w e) (forwardedStep tok w q g e) es

/-- A JSON value as relevant to the `user_input` field: `json.loads`
turns JSON `null` into Python `None`, any JSON string into a Python
string. -/
inductive JsonVal where
  | null : JsonVal
  | str : String → JsonVal
deriving DecidableEq

/-- Field lookup in the parsed JSON object. -/
def jsonField (data : List (String × JsonVal)) (k : String) : Option JsonVal :=
  (data.find? (fun p => p.1 == k)).map Prod.snd

/-- Python `data.get(k)`: `None` when the key is absent or its value is
JSON null. -/
def pyGet (data : List (String × JsonVal)) (k : String) : Option String :=
  match jsonField data k with
  | none => none
  | some JsonVal.null => none
  | some (JsonVal.str s) => some s

/-- The view function bot_view of views.py.  `body` is the result of
`json.loads` on the request body: `Except.error` models a raised
parse/shape failure (caught by the handler and turned into a 500),
`Except.ok data` a parsed JSON object.  The result is the successor
world together with the HTTP status and the payload string
(`bot_response` on 200, `error` otherwise). -/
def bot_view (tok : String → List String) (oracle : Nat → Bool) (cfg : SMTPConfig)
    (w : World) (method : String) (body : Except String (List (String × JsonVal))) :
    World × Nat × String :=
  if method == "POST" then
    match body with
    | Except.error e => (w, 500, e)
    | Except.ok data =>
      match pyGet data "user_input" with
      | none => (w, 400, "User input is required")
      | some user_input =>
        let wr := respond tok oracle cfg w user_input
        (wr.1, 200, wr.2)
  else
    (w, 400, "Only POST requests are allowed.")

/-- Whitespace splitter on the character list (helper for `tok0`). -/
def splitWsAux : List Char → List Char → List String
  | [], acc => if acc.isEmpty then [] else [String.mk acc.reverse]
  | c :: rest, acc =>
    if c = ' ' then
      if acc.isEmpty then splitWsAux rest []
      else String.mk acc.reverse :: splitWsAux rest []
    else splitWsAux rest (c :: acc)

/-- A concrete tokenizer (whitespace splitting) used to instantiate the
abstract tokenizer parameter in witnesses and counterexamples. -/
def tok0 (s : String) : List String := splitWsAux s.data []

/-- Notification oracle on which every send attempt succeeds. -/
def oracle1 : Nat → Bool := fun _ => true

/-- Notification oracle on which every send attempt fails. -/
def oracle0 : Nat → Bool := fun _ => false

/-- The SMTPConfig instance constructed in views.py. -/
def cfg0 : SMTPConfig :=
  { smtp_server := "", smtp_port := 587, sender_email := "",
    sender_password := "", recipient_email := "" }

/-! Helper lemmas about the dict model. -/

theorem assocGet_set_self (m : List (String × String)) (k v : String) :
    assocGet (assocSet m k v) k = some v := by
  induction m with
  | nil => simp [assocSet, assocGet]
  | cons p rest ih =>
    by_cases h : p.1 = k
    · simp [assocSet, assocGet, h]
    · simp [assocSet, assocGet, h, ih]

theorem assocGet_set_ne (m : List (String × String)) (k v p : String) (h : k ≠ p) :
    assocGet (assocSet m k v) p = assocGet m p := by
  induction m with
  | nil => simp [assocSet, assocGet, h]
  | cons e rest ih =>
    by_cases he : e.1 = k
    · simp [assocSet, assocGet, he, h]
    · simp [assocSet, assocGet, he, ih]

theorem assocGet_del_self (m : List (String × String)) (k : String) :
    assocGet (assocDel m k) k = none := by
  induction m with
  | nil => simp [assocDel, assocGet]
  | cons e rest ih =>
    by_cases he : e.1 = k
    · simp [assocDel, he, ih]
    · simp [assocDel, assocGet, he, ih]

theorem assocGet_del_ne (m : List (String × String)) (k p : String) (h : k ≠ p) :
    assocGet (assocDel m k) p = assocGet m p := by
  induction m with
  | nil => simp [assocDel]
  | cons e rest ih =>
    by_cases he : e.1 = k
    · have hep : e.1 ≠ p := by rw [he]; exact h
      simp [assocDel, assocGet, he, hep, ih, h]
    · simp [assocDel, assocGet, he, ih]

theorem assocHas_set (m : List (String × String)) (k v p : String) :
    assocHas (assocSet m k v) p = (k == p || assocHas m p) := by
  by_cases h : k = p
  · subst h
    simp [assocHas, assocGet_set_self]
  · simp [assocHas, assocGet_set_ne m k v p h, h]

theorem assocHas_del (m : List (String × String)) (k p : String) :
    assocHas (assocDel m k) p = (!(k == p) && assocHas m p) := by
  by_cases h : k = p
  · subst h
    simp [assocHas, assocGet_del_self]
  · simp [assocHas, assocGet_del_ne m k p h, h]

/-! Helper lemmas about `forward_query_to_admin` and `respond`. -/

theorem forward_noop (oracle : Nat → Bool) (cfg : SMTPConfig) (w : World) (q : String)
    (h : assocHas w.unanswered_queries q = true) :
    forward_query_to_admin oracle cfg w q = w := by
  simp [forward_query_to_admin, h]

theorem forward_fresh (oracle : Nat → Bool) (cfg : SMTPConfig) (w : World) (q : String)
    (h : assocHas w.unanswered_queries q = false) :
    forward_query_to_admin oracle cfg w q =
      if oracle w.attempts then
        { w with attempts := w.attempts + 1,
                 unanswered_queries :=
                   assocSet w.unanswered_queries q "Forwarded to admin's email. Waiting for response." }
      else
        { w with attempts := w.attempts + 1,
                 unanswered_queries :=
                   assocSet w.unanswered_queries q "Error forwarding to admin. Please try again." } := by
  simp [forward_query_to_admin, h]

theorem forward_db (oracle : Nat → Bool) (cfg : SMTPConfig) (w : World) (q : String) :
    (forward_query_to_admin oracle cfg w q).db = w.db := by
  unfold forward_query_to_admin
  by_cases h : assocHas w.unanswered_queries q = true
  · simp [h]
  · simp at h
    simp [h]
    cases oracle w.attempts <;> simp

theorem forward_unanswered_has (oracle : Nat → Bool) (cfg : SMTPConfig) (w : World) (q p : String) :
    assocHas (forward_query_to_admin oracle cfg w q).unanswered_queries p
      = ((q == p) || assocHas w.unanswered_queries p) := by
  by_cases h : assocHas w.unanswered_queries q = true
  · rw [forward_noop oracle cfg w q h]
    by_cases hqp : q = p
    · subst hqp; simp [h]
    · simp [hqp]
  · simp at h
    rw [forward_fresh oracle cfg w q h]
    cases oracle w.attempts <;> simp [assocHas_set]

theorem respond_eq (tok : String → List String) (oracle : Nat → Bool) (cfg : SMTPConfig)
    (w : World) (q : String) :
    respond tok oracle cfg w q =
      match assocGet w.db q with
      | some a => (w, a)
      | none =>
        match classify (process_input tok q) with
        | some r => (w, r)
        | none =>
          (forward_query_to_admin oracle cfg
             (add_to_db w q "Forwarded to admin's email. Waiting for response.") q,
           "I don't have an answer for that, sorry. 😔") := by
  cases hdb : assocGet w.db q with
  | some a => simp [respond, hdb]
  | none =>
    cases hg : analyze_greeting (process_input tok q) with
    | some r => simp [respond, classify, hdb, hg]
    | none =>
      cases hmv : analyze_mission_vision (process_input tok q) with
      | some r => simp [respond, classify, hdb, hg, hmv]
      | none =>
        cases hsv : analyze_scia_values (process_input tok q) with
        | some r => simp [respond, classify, hdb, hg, hmv, hsv]
        | none => simp [respond, classify, hdb, hg, hmv, hsv]

theorem classify_none_iff (doc : Doc) :
    classify doc = none ↔
      analyze_greeting doc = none ∧ analyze_mission_vision doc = none
        ∧ analyze_scia_values doc = none := by
  cases hg : analyze_greeting doc with
  | some r => simp [classify, hg]
  | none =>
    cases hmv : analyze_mission_vision doc with
    | some r => simp [classify, hg, hmv]
    | none =>
      cases hsv : analyze_scia_values doc with
      | some r => simp [classify, hg, hmv, hsv]
      | none => simp [classify, hg, hmv, hsv]

theorem escalateMiss_eq (tok : String → List String) (w : World) (u : String) :
    escalateMiss tok w u
      = ((assocGet w.db u).isNone && (classify (process_input tok u)).isNone) := by
  cases hg : analyze_greeting (process_input tok u) with
  | some r => simp [escalateMiss, classify, hg]
  | none =>
    cases hmv : analyze_mission_vision (process_input tok u) with
    | some r => simp [escalateMiss, classify, hg, hmv]
    | none =>
      cases hsv : analyze_scia_values (process_input tok u) with
      | some r => simp [escalateMiss, classify, hg, hmv, hsv]
      | none => simp [escalateMiss, classify, hg, hmv, hsv]

theorem respond_db_hit (tok : String → List String) (oracle : Nat → Bool) (cfg : SMTPConfig)
    (w : World) (q a : String) (h : assocGet w.db q = some a) :
    respond tok oracle cfg w q = (w, a) := by
  rw [respond_eq, h]

theorem respond_classifier_hit (tok : String → List String) (oracle : Nat → Bool)
    (cfg : SMTPConfig) (w : World) (q r : String)
    (hdb : assocGet w.db q = none) (hcls : classify (process_input tok q) = some r) :
    respond tok oracle cfg w q = (w, r) := by
  rw [respond_eq, hdb, hcls]

theorem respond_escalate (tok : String → List String) (oracle : Nat → Bool) (cfg : SMTPConfig)
    (w : World) (q : String)
    (hdb : assocGet w.db q = none)
    (hg : analyze_greeting (process_input tok q) = none)
    (hmv : analyze_mission_vision (process_input tok q) = none)
    (hsv : analyze_scia_values (process_input tok q) = none) :
    respond tok oracle cfg w q =
      (forward_query_to_admin oracle cfg
         (add_to_db w q "Forwarded to admin's email. Waiting for response.") q,
       "I don't have an answer for that, sorry. 😔") := by
  have hcls : classify (process_input tok q) = none :=
    (classify_none_iff (process_input tok q)).mpr ⟨hg, hmv, hsv⟩
  rw [respond_eq, hdb, hcls]

theorem respondN_fixed (tok : String → List String) (oracle : Nat → Bool) (cfg : SMTPConfig)
    (q a : String) (n : Nat) (w : World) (h : assocGet w.db q = some a) :
    respondN tok oracle cfg q n w = w := by
  induction n with
  | zero => rfl
  | succ n ih => simp [respondN, respond_db_hit tok oracle cfg w q a h, ih]

theorem respond_unanswered_has (tok : String → List String) (oracle : Nat → Bool)
    (cfg : SMTPConfig) (w : World) (u p : String) :
    assocHas (respond tok oracle cfg w u).1.unanswered_queries p
      = ((escalateMiss tok w u && (u == p)) || assocHas w.unanswered_queries p) := by
  rw [respond_eq, escalateMiss_eq]
  cases hdb : assocGet w.db u with
  | some a => simp
  | none =>
    cases hcls : classify (process_input tok u) with
    | some r => simp
    | none =>
      simp only [Option.isNone_none, Bool.true_and, Bool.and_true]
      rw [forward_unanswered_has]
      rfl

theorem assocDel_keys_not_contains (m : List (String × String)) (q : String) :
    ((assocDel m q).map Prod.fst).contains q = false := by
  induction m with
  | nil => rfl
  | cons e rest ih =>
    by_cases he : e.1 = q
    · simpa [assocDel, he] using ih
    · have he' : ¬(q = e.1) := fun hq => he hq.symm
      simpa [assocDel, he, he'] using ih

theorem trackedRun_correct (tok : String → List String) (oracle : Nat → Bool) (cfg : SMTPConfig)
    (q : String) :
    ∀ (es : List Event) (w : World) (g : Bool),
      assocHas w.unanswered_queries q = g →
      assocHas (run tok oracle cfg w es).unanswered_queries q
        = trackedRun tok oracle cfg q w g es := by
  intro es
  induction es with
  | nil =>
    intro w g h
    simpa [run, trackedRun] using h
  | cons e rest ih =>
    intro w g h
    simp only [run, trackedRun]
    apply ih
    cases e with
    | respond u =>
      simp only [step, trackedStep]
      rw [respond_unanswered_has, h]
      cases hu : (u == q) <;> cases he : escalateMiss tok w u <;> simp [hu, he]
    | forward p =>
      simp only [step, trackedStep]
      rw [forward_unanswered_has, h]
      cases hp : (p == q) <;> simp [hp]
    | provideAnswer p a =>
      simp only [step, trackedStep, provide_answer, add_to_db]
      rw [assocHas_set, h]
      cases hp : (p == q) <;> simp [hp]
    | resolve p =>
      simp only [step, trackedStep, mark_resolved]
      rw [assocHas_del, h]
      cases hp : (p == q) <;> simp [hp]

/-! Claim theorems. -/

/-- Claim C1, amended.  For every input string `q` not in the
KnowledgeBase for which the greeting, mission/vision and values
analyzers all return no answer, `respond q` writes the placeholder
entry "Forwarded to admin's email. Waiting for response." into the
KnowledgeBase at key `q`, creates a PendingAdminReply ledger record for
`q` when the notification succeeds (and the question has no existing
ledger record), and returns the fixed apology string
"I don't have an answer for that, sorry. 😔" (with its trailing emoji,
unlike the claim's quoted string) — the same apology for every
notification oracle, hence whether the send succeeds or fails. -/
theorem claim_escalation_effects (tok : String → List String) (oracle : Nat → Bool)
    (cfg : SMTPConfig) (w : World) (q : String)
    (hdb : assocGet w.db q = none)
    (hg : analyze_greeting (process_input tok q) = none)
    (hmv : analyze_mission_vision (process_input tok q) = none)
    (hsv : analyze_scia_values (process_input tok q) = none) :
    assocGet (respond tok oracle cfg w q).1.db q
        = some "Forwarded to admin's email. Waiting for response."
      ∧ (oracle w.attempts = true → assocHas w.unanswered_queries q = false →
          assocGet (respond tok oracle cfg w q).1.unanswered_queries q
            = some "Forwarded to admin's email. Waiting for response.")
      ∧ (respond tok oracle cfg w q).2 = "I don't have an answer for that, sorry. 😔" := by
  rw [respond_escalate tok oracle cfg w q hdb hg hmv hsv]
  refine ⟨?_, ?_, rfl⟩
  · rw [forward_db]
    simp [add_to_db, assocGet_set_self]
  · intro ho hl
    have hl' : assocHas (add_to_db w q "Forwarded to admin's email. Waiting for response.").unanswered_queries q = false := hl
    rw [forward_fresh _ _ _ _ hl']
    simp [ho, add_to_db, assocGet_set_self]

/-- Witness for C1 at the spec's escalation scenario input, with a
succeeding notification oracle and the initial empty state. -/
theorem claim_escalation_effects_witness :
    assocGet (respond tok0 oracle1 cfg0 initialWorld "what time is the next flight").1.db
        "what time is the next flight"
        = some "Forwarded to admin's email. Waiting for response."
      ∧ assocGet (respond tok0 oracle1 cfg0 initialWorld "what time is the next flight").1.unanswered_queries
          "what time is the next flight"
          = some "Forwarded to admin's email. Waiting for response."
      ∧ (respond tok0 oracle1 cfg0 initialWorld "what time is the next flight").2
          = "I don't have an answer for that, sorry. 😔" := by
  have h := claim_escalation_effects tok0 oracle1 cfg0 initialWorld
    "what time is the next flight" (by decide) (by decide) (by decide) (by decide)
  exact ⟨h.1, h.2.1 (by decide) (by decide), h.2.2⟩

/-- Counterexample to Claim C1 as stated: at the concrete unknown input
"what time is the next flight" (db miss, all three analyzers miss),
`respond` does not return "I don't have an answer for that, sorry." —
the string the code actually returns carries a trailing " 😔". -/
theorem claim_escalation_apology_cex :
    assocGet initialWorld.db "what time is the next flight" = none
      ∧ analyze_greeting (process_input tok0 "what time is the next flight") = none
      ∧ analyze_mission_vision (process_input tok0 "what time is the next flight") = none
      ∧ analyze_scia_values (process_input tok0 "what time is the next flight") = none
      ∧ (respond tok0 oracle1 cfg0 initialWorld "what time is the next flight").2
          ≠ "I don't have an answer for that, sorry." :=
  ⟨by decide, by decide, by decide, by decide, by decide⟩

/-- Claim C2.  For a question `q` with no KnowledgeBase entry, no
classifier answer and no existing ledger record, calling `respond q`
any `n + 1 ≥ 1` times makes exactly one notification send attempt: the
state after all the calls is the state after the first call (the first
call writes the placeholder into the db, so every later call is a pure
db hit), the attempt counter has grown by exactly one, and
`forward_query_to_admin` itself is a no-op whenever a ledger record for
`q` already exists. -/
theorem claim_single_notification (tok : String → List String) (oracle : Nat → Bool)
    (cfg : SMTPConfig) (w : World) (q : String) (n : Nat)
    (hdb : assocGet w.db q = none)
    (hg : analyze_greeting (process_input tok q) = none)
    (hmv : analyze_mission_vision (process_input tok q) = none)
    (hsv : analyze_scia_values (process_input tok q) = none)
    (hled : assocHas w.unanswered_queries q = false) :
    (respondN tok oracle cfg q (n + 1) w).attempts = w.attempts + 1
      ∧ respondN tok oracle cfg q (n + 1) w = (respond tok oracle cfg w q).1
      ∧ assocGet (respond tok oracle cfg w q).1.db q
          = some "Forwarded to admin's email. Waiting for response."
      ∧ (∀ w2 : World, assocHas w2.unanswered_queries q = true →
          forward_query_to_admin oracle cfg w2 q = w2) := by
  have hesc := respond_escalate tok oracle cfg w q hdb hg hmv hsv
  have hw1db : assocGet (respond tok oracle cfg w q).1.db q
      = some "Forwarded to admin's email. Waiting for response." := by
    rw [hesc, forward_db]
    simp [add_to_db, assocGet_set_self]
  have hiter : respondN tok oracle cfg q (n + 1) w = (respond tok oracle cfg w q).1 := by
    show respondN tok oracle cfg q n (respond tok oracle cfg w q).1 = (respond tok oracle cfg w q).1
    exact respondN_fixed tok oracle cfg q _ n _ hw1db
  have hatt : (respond tok oracle cfg w q).1.attempts = w.attempts + 1 := by
    rw [hesc]
    have hl' : assocHas (add_to_db w q "Forwarded to admin's email. Waiting for response.").unanswered_queries q = false := hled
    rw [forward_fresh _ _ _ _ hl']
    cases ho : oracle (add_to_db w q "Forwarded to admin's email. Waiting for response.").attempts <;>
      simp [ho, add_to_db]
  refine ⟨by rw [hiter, hatt], hiter, hw1db, ?_⟩
  intro w2 h2
  exact forward_noop oracle cfg w2 q h2

/-- Witness for C2: asking the same fresh unknown question three times
from the empty initial state makes exactly one send attempt, and the
forward on the already-recorded question is a no-op. -/
theorem claim_single_notification_witness :
    (respondN tok0 oracle1 cfg0 "what time is the next flight" 3 initialWorld).attempts = 1
      ∧ forward_query_to_admin oracle1 cfg0
          (respond tok0 oracle1 cfg0 initialWorld "what time is the next flight").1
          "what time is the next flight"
          = (respond tok0 oracle1 cfg0 initialWorld "what time is the next flight").1 := by
  have h := claim_single_notification tok0 oracle1 cfg0 initialWorld
    "what time is the next flight" 2 (by decide) (by decide) (by decide) (by decide) (by decide)
  exact ⟨h.1, h.2.2.2 _ (by decide)⟩

/-- Claim C3, amended.  Over every state reachable from the initial
empty state by the public operations (respond, forward, provideAnswer,
resolve), a ledger record for question `q` exists if and only if `q`
has been forwarded (successfully or not, directly or through an
escalating respond) OR has been given an answer via provideAnswer, and
has not since been marked resolved — the ghost flag computed by
`trackedRun`.  The claim's original reading, without the provideAnswer
disjunct, is refuted by the counterexample. -/
theorem claim_ledger_invariant_amended (tok : String → List String) (oracle : Nat → Bool)
    (cfg : SMTPConfig) (q : String) (es : List Event) :
    assocHas (run tok oracle cfg initialWorld es).unanswered_queries q
      = trackedRun tok oracle cfg q initialWorld false es :=
  trackedRun_correct tok oracle cfg q es initialWorld false rfl

/-- Counterexample to Claim C3 as stated: after the single public
operation `provideAnswer "x" "y"` from the initial state, a ledger
record for "x" exists although "x" was never forwarded (the
forwarded-and-not-resolved ghost flag of `forwardedRun` is false). -/
theorem claim_ledger_invariant_cex :
    assocHas (run tok0 oracle1 cfg0 initialWorld
        [Event.provideAnswer "x" "y"]).unanswered_queries "x" = true
      ∧ forwardedRun tok0 oracle1 cfg0 "x" initialWorld false
          [Event.provideAnswer "x" "y"] = false :=
  ⟨by decide, by decide⟩

/-- Claim C4.  For a question with no existing ledger record, when the
notification send fails, `forward_query_to_admin` (a total function:
the exception is caught, never propagated) records the ForwardError
status "Error forwarding to admin. Please try again." for `q`; the
enclosing `respond` also ends with that ledger status, and its
user-visible response is the fixed apology string — the same string
`respond` returns under every other notification oracle. -/
theorem claim_forward_error_path (tok : String → List String) (oracle : Nat → Bool)
    (cfg : SMTPConfig) (w : World) (q : String)
    (hled : assocHas w.unanswered_queries q = false)
    (hfail : oracle w.attempts = false)
    (hdb : assocGet w.db q = none)
    (hg : analyze_greeting (process_input tok q) = none)
    (hmv : analyze_mission_vision (process_input tok q) = none)
    (hsv : analyze_scia_values (process_input tok q) = none) :
    assocGet (forward_query_to_admin oracle cfg w q).unanswered_queries q
        = some "Error forwarding to admin. Please try again."
      ∧ assocGet (respond tok oracle cfg w q).1.unanswered_queries q
        = some "Error forwarding to admin. Please try again."
      ∧ (respond tok oracle cfg w q).2 = "I don't have an answer for that, sorry. 😔"
      ∧ (∀ orc2 : Nat → Bool, (respond tok orc2 cfg w q).2 = (respond tok oracle cfg w q).2) := by
  refine ⟨?_, ?_, ?_, ?_⟩
  · rw [forward_fresh oracle cfg w q hled]
    simp [hfail, assocGet_set_self]
  · rw [respond_escalate tok oracle cfg w q hdb hg hmv hsv]
    have hl' : assocHas (add_to_db w q "Forwarded to admin's email. Waiting for response.").unanswered_queries q = false := hled
    rw [forward_fresh _ _ _ _ hl']
    simp [hfail, add_to_db, assocGet_set_self]
  · rw [respond_escalate tok oracle cfg w q hdb hg hmv hsv]
  · intro orc2
    rw [respond_escalate tok oracle cfg w q hdb hg hmv hsv,
        respond_escalate tok orc2 cfg w q hdb hg hmv hsv]

/-- Witness for C4 at the concrete unknown input "book me a hotel" with
the always-failing notification oracle, from the initial empty state. -/
theorem claim_forward_error_path_witness :
    assocGet (forward_query_to_admin oracle0 cfg0 initialWorld "book me a hotel").unanswered_queries
        "book me a hotel" = some "Error forwarding to admin. Please try again."
      ∧ assocGet (respond tok0 oracle0 cfg0 initialWorld "book me a hotel").1.unanswered_queries
          "book me a hotel" = some "Error forwarding to admin. Please try again."
      ∧ (respond tok0 oracle0 cfg0 initialWorld "book me a hotel").2
          = "I don't have an answer for that, sorry. 😔"
      ∧ (respond tok0 oracle1 cfg0 initialWorld "book me a hotel").2
          = (respond tok0 oracle0 cfg0 initialWorld "book me a hotel").2 := by
  have h := claim_forward_error_path tok0 oracle0 cfg0 initialWorld "book me a hotel"
    (by decide) (by decide) (by decide) (by decide) (by decide) (by decide)
  exact ⟨h.1, h.2.1, h.2.2.1, h.2.2.2 oracle1⟩

/-- Claim C5.  `add_to_db` (the KnowledgeBase insert) makes the entry
for `q` equal to `a`, and whenever a state's db still maps `q` to `a`
(i.e. until some operation overwrites the entry), `respond q` returns
exactly `a` and leaves the whole state unchanged — the lookup has no
side effects. -/
theorem claim_kb_exact_match (tok : String → List String) (oracle : Nat → Bool)
    (cfg : SMTPConfig) (w : World) (q a : String) :
    assocGet (add_to_db w q a).db q = some a
      ∧ (∀ w2 : World, assocGet w2.db q = some a → respond tok oracle cfg w2 q = (w2, a)) := by
  refine ⟨by simp [add_to_db, assocGet_set_self], ?_⟩
  intro w2 h2
  exact respond_db_hit tok oracle cfg w2 q a h2

/-- Witness for C5 at a concrete inserted pair. -/
theorem claim_kb_exact_match_witness :
    assocGet (add_to_db initialWorld "q1" "a1").db "q1" = some "a1"
      ∧ respond tok0 oracle1 cfg0 (add_to_db initialWorld "q1" "a1") "q1"
          = (add_to_db initialWorld "q1" "a1", "a1") := by
  have h := claim_kb_exact_match tok0 oracle1 cfg0 initialWorld "q1" "a1"
  exact ⟨h.1, h.2 (add_to_db initialWorld "q1" "a1") (by decide)⟩

/-- Claim C6.  Round-trip: after `provide_answer q "real answer"`,
`respond q` returns "real answer" (with no further state change); and
after `mark_resolved q` the question `q` no longer occurs in the list
of pending questions returned by `get_unanswered_queries`. -/
theorem claim_resolution_roundtrip (tok : String → List String) (oracle : Nat → Bool)
    (cfg : SMTPConfig) (w w2 : World) (q : String) :
    respond tok oracle cfg (provide_answer w q "real answer") q
        = (provide_answer w q "real answer", "real answer")
      ∧ (get_unanswered_queries (mark_resolved w2 q)).contains q = false := by
  constructor
  · apply respond_db_hit
    simp [provide_answer, add_to_db, assocGet_set_self]
  · exact assocDel_keys_not_contains w2.unanswered_queries q

/-- Claim C7.  Frame property: when the input misses the KnowledgeBase
but the intent classifier (greeting, then mission/vision, then values)
produces an answer, `respond` returns exactly that answer and the
resulting state is the unchanged input state — same db, same ledger,
same attempt counter; intent answers are not cached and no notification
is attempted. -/
theorem claim_intent_frame (tok : String → List String) (oracle : Nat → Bool)
    (cfg : SMTPConfig) (w : World) (q r : String)
    (hdb : assocGet w.db q = none)
    (hcls : classify (process_input tok q) = some r) :
    respond tok oracle cfg w q = (w, r) :=
  respond_classifier_hit tok oracle cfg w q r hdb hcls

/-- Witness for C7 at the greeting input "hi" from the empty state. -/
theorem claim_intent_frame_witness :
    respond tok0 oracle1 cfg0 initialWorld "hi"
      = (initialWorld, "Hello there! How can I assist you today?") :=
  claim_intent_frame tok0 oracle1 cfg0 initialWorld "hi"
    "Hello there! How can I assist you today?" (by decide) (by decide)

/-- Claim C8.  For every document whose lowercased text contains the
literal word "values", `analyze_scia_values` returns the comma-joined
capitalized list of the four value names in fixed order — this branch
comes first, so it takes precedence over the per-value scenario branch
even when a specific value keyword is also present. -/
theorem claim_values_enumeration (doc : Doc)
    (h : strContains (pyLower doc.text) "values" = true) :
    analyze_scia_values doc
      = some "Safety, Customer obsession, Integrity, Accountability" := by
  simp only [analyze_scia_values, h, if_true]
  rfl

/-- Witness for C8 at the spec's input "what are scia values" (which
also contains no specific value keyword hit before the values branch). -/
theorem claim_values_enumeration_witness :
    analyze_scia_values (process_input tok0 "what are scia values")
      = some "Safety, Customer obsession, Integrity, Accountability" :=
  claim_values_enumeration (process_input tok0 "what are scia values") (by decide)

/-- Claim C9.  At the HTTP interface, for a POST request whose body
parses to a JSON object, the 400 "User input is required" response is
returned exactly when the `user_input` field is absent or JSON null;
any string value — including the empty string — is accepted and passed
to `respond`, whose result becomes the 200 response and the new state. -/
theorem claim_http_input_required (tok : String → List String) (oracle : Nat → Bool)
    (cfg : SMTPConfig) (w : World) (data : List (String × JsonVal)) :
    ((jsonField data "user_input" = none ∨ jsonField data "user_input" = some JsonVal.null) →
        bot_view tok oracle cfg w "POST" (Except.ok data) = (w, 400, "User input is required"))
      ∧ (∀ s : String, jsonField data "user_input" = some (JsonVal.str s) →
          bot_view tok oracle cfg w "POST" (Except.ok data)
            = ((respond tok oracle cfg w s).1, 200, (respond tok oracle cfg w s).2))
      ∧ (bot_view tok oracle cfg w "POST" (Except.ok data) = (w, 400, "User input is required") →
          jsonField data "user_input" = none ∨ jsonField data "user_input" = some JsonVal.null) := by
  refine ⟨?_, ?_, ?_⟩
  · intro h
    have hget : pyGet data "user_input" = none := by
      cases h with
      | inl h => simp [pyGet, h]
      | inr h => simp [pyGet, h]
    simp [bot_view, hget]
  · intro s hs
    have hget : pyGet data "user_input" = some s := by simp [pyGet, hs]
    simp [bot_view, hget]
  · intro h
    cases hj : jsonField data "user_input" with
    | none => exact Or.inl rfl
    | some v =>
      cases v with
      | null => exact Or.inr rfl
      | str s =>
        exfalso
        have hget : pyGet data "user_input" = some s := by simp [pyGet, hj]
        have h2 := congrArg (fun t => t.2.1) h
        simp [bot_view, hget] at h2

/-- Witness for C9: a JSON-null `user_input` is rejected with the 400
error, while the empty string is accepted and forwarded to `respond`. -/
theorem claim_http_input_required_witness :
    bot_view tok0 oracle1 cfg0 initialWorld "POST"
        (Except.ok [("user_input", JsonVal.null)])
        = (initialWorld, 400, "User input is required")
      ∧ bot_view tok0 oracle1 cfg0 initialWorld "POST"
          (Except.ok [("user_input", JsonVal.str "")])
          = ((respond tok0 oracle1 cfg0 initialWorld "").1, 200,
             (respond tok0 oracle1 cfg0 initialWorld "").2) := by
  constructor
  · exact (claim_http_input_required tok0 oracle1 cfg0 initialWorld
      [("user_input", JsonVal.null)]).1 (Or.inr (by decide))
  · exact (claim_http_input_required tok0 oracle1 cfg0 initialWorld
      [("user_input", JsonVal.str "")]).2.1 "" (by decide)

/-- Claim C10.  When the first token of a document is not a greeting
word but some token anywhere in the document is a gratitude word, the
whole-document gratitude check fires during the first token's loop
iteration, so `analyze_greeting` returns "You're welcome!" — even when
a greeting token occurs later in the input. -/
theorem claim_gratitude_precedence (doc : Doc) (t : String) (rest : List String)
    (htok : doc.tokens = t :: rest)
    (hng : greetings.contains (pyLower t) = false)
    (hgr : doc.tokens.any (fun tk => gratitude_words.contains (pyLower tk)) = true) :
    analyze_greeting doc = some "You're welcome!" := by
  unfold analyze_greeting
  rw [htok] at hgr
  rw [htok]
  simp only [greetingScan, hng, hgr]
  simp

/-- Witness for C10 at a document with a leading gratitude token and a
trailing greeting token. -/
theorem claim_gratitude_precedence_witness :
    analyze_greeting ⟨"thanks hello", ["thanks", "hello"]⟩ = some "You're welcome!" :=
  claim_gratitude_precedence ⟨"thanks hello", ["thanks", "hello"]⟩ "thanks" ["hello"]
    rfl (by decide) (by decide)

end FaqBot
